import Mathlib

/-! Verification of the mock mobile-authentication backend in
docker/mock-api/app.py. Each Python function relevant to the claims is
embedded as a pure Lean function. The Redis store is modelled as explicit
state: association lists for the captcha and blacklist namespaces and an
option-valued counter for one rate-limit key. Wall-clock time, fresh UUIDs
and random CAPTCHA operands are passed as explicit parameters. -/

/-- Security configuration constant MAX_LOGIN_ATTEMPTS from app.py. -/
def MAX_LOGIN_ATTEMPTS : Nat := 5

/-- Security configuration constant CAPTCHA_THRESHOLD from app.py. -/
def CAPTCHA_THRESHOLD : Nat := 3

/-- JWT configuration constant JWT_EXPIRATION_HOURS from app.py. -/
def JWT_EXPIRATION_HOURS : Nat := 24

/-- Python truthiness of an optional string: None and the empty string are falsy. -/
def optBlank : Option String → Bool
  | none => true
  | some s => decide (s = "")

/-- Whitespace test used to model the Python str.strip method. -/
def charIsSpace (c : Char) : Bool :=
  c = ' ' || c = '\t' || c = '\n' || c = '\r'

/-- Drop leading whitespace characters from a character list. -/
def dropLeadingSpace : List Char → List Char
  | [] => []
  | c :: cs => if charIsSpace c then dropLeadingSpace cs else c :: cs

/-- Model of the Python str.strip method: remove whitespace from both ends. -/
def strTrim (s : String) : String :=
  ⟨(dropLeadingSpace ((dropLeadingSpace s.data).reverse)).reverse⟩

/-- Test whether the second character list is an initial segment of the first. -/
def charsStartWith : List Char → List Char → Bool
  | _, [] => true
  | [], _ :: _ => false
  | c :: cs, p :: ps => if c = p then charsStartWith cs ps else false

/-- Model of the Python str.startswith method. -/
def strStartsWith (s pat : String) : Bool :=
  charsStartWith s.data pat.data

/-- Lookup of a key in an association-list model of one Redis namespace. -/
def assocGet {β : Type} : String → List (String × β) → Option β
  | _, [] => none
  | k, (a, v) :: t => if k = a then some v else assocGet k t

/-- Redis DEL on an association-list namespace: remove every binding of the key. -/
def redisDelete (k : String) (store : List (String × String)) : List (String × String) :=
  store.filter (fun p => decide (p.1 ≠ k))

/-- State of one rate-limit Redis key: counter value and remaining TTL in seconds. -/
structure RateEntry where
  count : Nat
  ttl : Nat
  deriving DecidableEq

/-- AuthenticationService.check_rate_limit from app.py, acting on the state of
the single Redis key rate_limit:identifier. A missing key is created with
count 1 and TTL equal to the window via SETEX; a present counter below the
limit is incremented by INCR, which leaves the TTL untouched; otherwise the
call is refused and the store is left as it is. -/
def check_rate_limit (limit window : Nat) (store : Option RateEntry) :
    Bool × Option RateEntry :=
  match store with
  | none => (true, some ⟨1, window⟩)
  | some e => if e.count < limit then (true, some ⟨e.count + 1, e.ttl⟩) else (false, store)

/-- Store state of the rate-limit key after n calls within one window, starting
from an absent key. -/
def rateRun (limit window : Nat) : Nat → Option RateEntry
  | 0 => none
  | n + 1 => (check_rate_limit limit window (rateRun limit window n)).2

/-- Boolean result of the call numbered n, counting from 0, in a sequence of
calls within one window starting from an absent key. -/
def rateNth (limit window n : Nat) : Bool :=
  (check_rate_limit limit window (rateRun limit window n)).1

/-- Redis INCR used in the two-step decomposition of check_rate_limit: a present
counter is incremented with its TTL untouched, a missing key is created with
value 1 and no expiry, modelled as TTL 0. -/
def redisIncr : Option RateEntry → Option RateEntry
  | some e => some ⟨e.count + 1, e.ttl⟩
  | none => some ⟨1, 0⟩

/-- Second half of check_rate_limit split at its Redis round-trips: the branch
decision uses the value observed by the earlier GET, while the SETEX or INCR
write is applied to the store as it is at resume time. Under concurrent calls
for the same identifier another call may have written between the two halves. -/
def rlResume (limit window : Nat) (observed store : Option RateEntry) :
    Bool × Option RateEntry :=
  match observed with
  | none => (true, some ⟨1, window⟩)
  | some e => if e.count < limit then (true, redisIncr store) else (false, store)

/-- Challenge object returned by AuthenticationService.generate_captcha. -/
structure CaptchaChallenge where
  captcha_id : String
  question : String
  expires_in : Nat

/-- AuthenticationService.generate_captcha from app.py. The fresh UUID and the
two random operands in the range 0 to 9 are parameters; the answer string is
stored in the captcha namespace under the fresh id, TTL 300 seconds. Expiry of
an entry is modelled as its absence from the list. -/
def generate_captcha (store : List (String × String)) (captcha_id : String)
    (num1 num2 : Nat) : CaptchaChallenge × List (String × String) :=
  (⟨captcha_id, toString num1 ++ " + " ++ toString num2 ++ " = ?", 300⟩,
    (captcha_id, toString (num1 + num2)) :: store)

/-- AuthenticationService.verify_captcha from app.py: fetch the stored answer,
test Python truthiness of the fetched value, compare the stripped user answer
for exact equality, and delete the record on success for one-time use. -/
def verify_captcha (store : List (String × String)) (captcha_id user_answer : String) :
    Bool × List (String × String) :=
  match assocGet captcha_id store with
  | some correct =>
      if correct ≠ "" ∧ strTrim user_answer = correct then
        (true, redisDelete captcha_id store)
      else (false, store)
  | none => (false, store)

/-- Claim set carried by a JWT issued by the mock API. -/
structure JwtPayload where
  user_id : String
  username : String
  email : String
  role : String
  exp : Nat
  iat : Nat
  jti : String
  deriving DecidableEq

/-- A JWT modelled as its payload plus a signature string over the payload. -/
structure JwtToken where
  payload : JwtPayload
  sig : String
  deriving DecidableEq

/-- Model of the HS256 message authentication tag: a string determined by the
server secret and every claim of the payload. -/
def jwtSig (secret : String) (p : JwtPayload) : String :=
  secret ++ "|" ++ p.user_id ++ "|" ++ p.username ++ "|" ++ p.email ++ "|" ++ p.role ++
    "|" ++ toString p.exp ++ "|" ++ toString p.iat ++ "|" ++ p.jti

/-- Model of jwt.encode with the server secret. -/
def jwt_encode (secret : String) (p : JwtPayload) : JwtToken :=
  ⟨p, jwtSig secret p⟩

/-- Model of jwt.decode: the signature is checked first and a mismatch raises
InvalidTokenError, modelled as none. When verifyExp is set, a token whose exp
lies strictly before now raises ExpiredSignatureError, modelled as none. -/
def jwt_decode (secret : String) (verifyExp : Bool) (now : Nat) (t : JwtToken) :
    Option JwtPayload :=
  if t.sig = jwtSig secret t.payload then
    if verifyExp ∧ t.payload.exp < now then none
    else some t.payload
  else none

/-- AuthenticationService.verify_jwt_token from app.py: decode with signature
and expiry enforcement, then reject the token if its jti is present in the
blacklist namespace. -/
def verify_jwt_token (secret : String) (blacklist : List (String × Nat)) (now : Nat)
    (t : JwtToken) : Option JwtPayload :=
  match jwt_decode secret true now t with
  | none => none
  | some p => if (assocGet p.jti blacklist).isSome then none else some p

/-- AuthenticationService.blacklist_token from app.py: decode the token with
expiry verification disabled and SETEX the jti into the blacklist namespace for
86400 seconds; a decode failure is caught and leaves the store unchanged. -/
def blacklist_token (secret : String) (blacklist : List (String × Nat)) (t : JwtToken) :
    List (String × Nat) :=
  match jwt_decode secret false 0 t with
  | some p => (p.jti, 86400) :: blacklist
  | none => blacklist

/-- Account row of test_users as read by the login route. The salt, biometric
and two-factor columns and the last_login_attempt timestamp play no part in
any claim and are not modelled. -/
structure Account where
  id : Nat
  username : String
  email : String
  password_hash : String
  is_active : Bool
  is_locked : Bool
  failed_login_attempts : Nat
  user_role : String
  deriving DecidableEq

/-- AuthenticationService.generate_jwt_token from app.py: the payload embeds the
account id as a string, username, email and role, exp equal to now plus 24
hours, iat equal to now, and a fresh jti passed as a parameter. Times are in
seconds. -/
def generate_jwt_token (secret : String) (now : Nat) (jti : String) (u : Account) :
    JwtToken :=
  jwt_encode secret
    { user_id := toString u.id
      username := u.username
      email := u.email
      role := u.user_role
      exp := now + JWT_EXPIRATION_HOURS * 3600
      iat := now
      jti := jti }

/-- calculate_risk_score from app.py: sequential accumulation capped at 100.
The local wall-clock hour is passed explicitly. The device fingerprint test is
Python truthiness, so an absent and an empty header both count as missing. -/
def calculate_risk_score (ip : String) (device_fingerprint : Option String)
    (success : Bool) (hour : Nat) : Nat :=
  min
    ((((0 + (if strStartsWith ip "127." || strStartsWith ip "192.168." then 10 else 0)) +
        (if optBlank device_fingerprint then 20 else 0)) +
      (if success = false then 30 else 0)) +
     (if hour < 6 ∨ 22 < hour then 15 else 0))
    100

/-- Loopback or RFC1918 private address test on the textual IP, written from
the spec wording for comparison with the code. -/
def spec_loopback_or_private (ip : String) : Bool :=
  strStartsWith ip "127." || strStartsWith ip "10." || strStartsWith ip "192.168." ||
    (List.range 16).any (fun k => strStartsWith ip ("172." ++ toString (16 + k) ++ "."))

/-- Risk score written from the spec wording, for refinement comparison with
calculate_risk_score: additive and capped, plus 10 for a loopback or private
address, plus 20 when no fingerprint header was supplied, plus 30 on failure,
plus 15 when the hour is outside the interval from 6 inclusive to 22 exclusive. -/
def spec_risk_score (ip : String) (device_fingerprint : Option String)
    (success : Bool) (hour : Nat) : Nat :=
  min
    ((if spec_loopback_or_private ip then 10 else 0) +
      (if device_fingerprint = none then 20 else 0) +
      (if success = false then 30 else 0) +
      (if hour < 6 ∨ 22 ≤ hour then 15 else 0))
    100

/-- Request body fields of the login route that the claims depend on. -/
structure LoginRequest where
  username : String
  password : String
  captcha_id : Option String
  captcha_answer : Option String
  deriving DecidableEq

/-- Outcome tag of the login route, one per return site. -/
inductive LoginOutcome where
  | success
  | missingCredentials
  | rateLimited
  | invalidCredentials
  | accountInactive
  | accountLocked
  | captchaRequired
  | invalidCaptcha
  deriving DecidableEq

/-- Error code string attached to each outcome by the login route. -/
def errorCode : LoginOutcome → Option String
  | .success => none
  | .missingCredentials => some "MISSING_CREDENTIALS"
  | .rateLimited => some "RATE_LIMITED"
  | .invalidCredentials => some "INVALID_CREDENTIALS"
  | .accountInactive => some "ACCOUNT_INACTIVE"
  | .accountLocked => some "ACCOUNT_LOCKED"
  | .captchaRequired => some "CAPTCHA_REQUIRED"
  | .invalidCaptcha => some "INVALID_CAPTCHA"

/-- Mutable state read and written by one login call: the rate counter of the
client key, the account row found for the username, and the captcha namespace. -/
structure LoginState where
  rate : Option RateEntry
  user : Option Account
  captchaStore : List (String × String)
  deriving DecidableEq

/-- Result of one login call: the outcome, the remaining_attempts field of the
response when present, and the state after the call. -/
structure LoginResult where
  outcome : LoginOutcome
  remaining_attempts : Option Nat
  state : LoginState
  deriving DecidableEq

/-- Account row with the failed counter set to n and the lock flag recomputed
from n against MAX_LOGIN_ATTEMPTS, every other column as in u0. This is the
semantics of the UPDATE statement of the failed branch when applied with new
count n, and of the spec transition relation of the lockout state machine. -/
def accountAfterFailures (u0 : Account) (n : Nat) : Account :=
  { u0 with
    failed_login_attempts := n
    is_locked := decide (MAX_LOGIN_ATTEMPTS ≤ n) }

/-- Password phase of the login route. On a failed check the UPDATE statement
increments failed_login_attempts by one and recomputes is_locked from the new
count against MAX_LOGIN_ATTEMPTS; the response is ACCOUNT_LOCKED when the new
count reaches the threshold and otherwise INVALID_CREDENTIALS carrying the
remaining attempts. On success the row is reset to zero failures, unlocked. -/
def passwordPhase (checkPw : String → String → Bool) (st : LoginState) (u : Account)
    (req : LoginRequest) : LoginResult :=
  if checkPw u.password_hash req.password = false then
    if MAX_LOGIN_ATTEMPTS ≤ u.failed_login_attempts + 1 then
      ⟨.accountLocked, none,
        { st with user := some (accountAfterFailures u (u.failed_login_attempts + 1)) }⟩
    else
      ⟨.invalidCredentials, some (MAX_LOGIN_ATTEMPTS - (u.failed_login_attempts + 1)),
        { st with user := some (accountAfterFailures u (u.failed_login_attempts + 1)) }⟩
  else
    ⟨.success, none,
      { st with user := some ({ u with failed_login_attempts := 0, is_locked := false }) }⟩

/-- Login route of app.py. The external password check is a parameter, the
account lookup result is carried in the state, and the fresh captcha id and
random operands used by the two failure branches of the gate are parameters.
The phases follow the source order: missing credentials, rate limit, lookup,
active flag, lock flag, captcha gate, password check. -/
def login (checkPw : String → String → Bool) (st : LoginState) (req : LoginRequest)
    (freshId : String) (num1 num2 : Nat) : LoginResult :=
  if req.username = "" ∨ req.password = "" then
    ⟨.missingCredentials, none, st⟩
  else if (check_rate_limit 10 300 st.rate).1 = false then
    ⟨.rateLimited, none, { st with rate := (check_rate_limit 10 300 st.rate).2 }⟩
  else
    match st.user with
    | none =>
      ⟨.invalidCredentials, none, { st with rate := (check_rate_limit 10 300 st.rate).2 }⟩
    | some u =>
      if u.is_active = false then
        ⟨.accountInactive, none, { st with rate := (check_rate_limit 10 300 st.rate).2 }⟩
      else if u.is_locked then
        ⟨.accountLocked, none, { st with rate := (check_rate_limit 10 300 st.rate).2 }⟩
      else if CAPTCHA_THRESHOLD ≤ u.failed_login_attempts then
        if optBlank req.captcha_id || optBlank req.captcha_answer then
          ⟨.captchaRequired, none,
            { st with
              rate := (check_rate_limit 10 300 st.rate).2
              captchaStore := (generate_captcha st.captchaStore freshId num1 num2).2 }⟩
        else if (verify_captcha st.captchaStore (req.captcha_id.getD "")
            (req.captcha_answer.getD "")).1 = false then
          ⟨.invalidCaptcha, none,
            { st with
              rate := (check_rate_limit 10 300 st.rate).2
              captchaStore := (generate_captcha
                (verify_captcha st.captchaStore (req.captcha_id.getD "")
                  (req.captcha_answer.getD "")).2 freshId num1 num2).2 }⟩
        else
          passwordPhase checkPw
            { st with
              rate := (check_rate_limit 10 300 st.rate).2
              captchaStore := (verify_captcha st.captchaStore (req.captcha_id.getD "")
                (req.captcha_answer.getD "")).2 } u req
      else
        passwordPhase checkPw { st with rate := (check_rate_limit 10 300 st.rate).2 } u req

/-- One failed password attempt by a cooperating client: the client first
obtains a captcha challenge with operands 3 and 4 stored under the id g, then
posts the login with that id, the correct answer 7, and a wrong password. -/
def failedLoginStep (checkPw : String → String → Bool) (uname pw : String)
    (st : LoginState) : LoginState :=
  (login checkPw
    { st with captchaStore := (generate_captcha st.captchaStore "g" 3 4).2 }
    ⟨uname, pw, some "g", some "7"⟩ "h" 1 2).state

/-- State after n consecutive failed password attempts. -/
def failedLoginRun (checkPw : String → String → Bool) (uname pw : String) :
    Nat → LoginState → LoginState
  | 0, st => st
  | n + 1, st => failedLoginStep checkPw uname pw (failedLoginRun checkPw uname pw n st)

/-! Helper lemmas. -/

lemma assocGet_redisDelete (k : String) (store : List (String × String)) :
    assocGet k (redisDelete k store) = none := by
  induction store with
  | nil => rfl
  | cons p t ih =>
    obtain ⟨a, v⟩ := p
    by_cases h : a = k
    · simpa [redisDelete, List.filter_cons, h] using ih
    · have hk : ¬ k = a := fun hkk => h hkk.symm
      simpa [redisDelete, List.filter_cons, h, assocGet, hk] using ih

lemma verify_captcha_true_store (store : List (String × String)) (cid ans : String)
    (h : (verify_captcha store cid ans).1 = true) :
    (verify_captcha store cid ans).2 = redisDelete cid store := by
  unfold verify_captcha at h ⊢
  cases hg : assocGet cid store with
  | none => rw [hg] at h; simp at h
  | some c =>
    rw [hg] at h
    by_cases hc : c ≠ "" ∧ strTrim ans = c
    · simp [hc]
    · simp [hc] at h

lemma rateRun_closed (limit window : Nat) (h : 1 ≤ limit) (n : Nat) :
    rateRun limit window n = if n = 0 then none else some ⟨min n limit, window⟩ := by
  induction n with
  | zero => rfl
  | succ n ih =>
    rw [rateRun, ih]
    rcases Nat.eq_zero_or_pos n with hn | hn
    · subst hn
      simp [check_rate_limit, Nat.min_eq_left h]
    · rw [if_neg (Nat.pos_iff_ne_zero.mp hn), if_neg (Nat.succ_ne_zero n)]
      rcases Nat.lt_or_ge n limit with hlt | hge
      · rw [Nat.min_eq_left (Nat.le_of_lt hlt)]
        simp [check_rate_limit, hlt, Nat.min_eq_left (Nat.succ_le_of_lt hlt)]
      · rw [Nat.min_eq_right hge]
        simp [check_rate_limit, Nat.min_eq_right (Nat.le_succ_of_le hge)]

/-- C2 amended: within one window and for every limit at least 1, the call
numbered n from an absent key is admitted exactly when n is below the limit,
and every refused call leaves the stored counter and TTL untouched. -/
theorem rate_limiter_first_limit_only (limit window : Nat) (h : 1 ≤ limit) (n : Nat) :
    (rateNth limit window n = true ↔ n < limit) ∧
    (limit ≤ n → rateRun limit window (n + 1) = rateRun limit window n) := by
  constructor
  · rw [rateNth, rateRun_closed limit window h]
    rcases Nat.eq_zero_or_pos n with hn | hn
    · subst hn
      simp [check_rate_limit]
      omega
    · rw [if_neg (Nat.pos_iff_ne_zero.mp hn)]
      rcases Nat.lt_or_ge n limit with hlt | hge
      · rw [Nat.min_eq_left (Nat.le_of_lt hlt)]
        simp [check_rate_limit, hlt]
      · rw [Nat.min_eq_right hge]
        simp [check_rate_limit]
        omega
  · intro hle
    have hn0 : ¬ n = 0 := by omega
    show (check_rate_limit limit window (rateRun limit window n)).2 = rateRun limit window n
    rw [rateRun_closed limit window h n, if_neg hn0, Nat.min_eq_right hle]
    simp [check_rate_limit]

/-- C2 witness: with limit 2 the second call is admitted and the third call
leaves the store unchanged. -/
theorem rate_limiter_first_limit_only_witness :
    rateNth 2 60 1 = true ∧ rateRun 2 60 3 = rateRun 2 60 2 :=
  ⟨(rate_limiter_first_limit_only 2 60 (by decide) 1).1.mpr (by decide),
    (rate_limiter_first_limit_only 2 60 (by decide) 2).2 (by decide)⟩

/-- C2 counterexample: with limit 0 the claim says no call is admitted, but the
first call takes the missing-key branch, creates the counter and is admitted. -/
theorem rate_limiter_zero_limit_cex :
    rateNth 0 300 0 = true ∧ rateRun 0 300 1 = some ⟨1, 300⟩ := by
  decide

/-- C3: a successful captcha verification deletes the stored answer, so a
second verification with the same id fails whatever answer is offered, and any
verification that returns false leaves the captcha store unchanged. -/
theorem captcha_single_use (store : List (String × String)) (cid ans1 ans2 : String) :
    ((verify_captcha store cid ans1).1 = true →
      (verify_captcha (verify_captcha store cid ans1).2 cid ans2).1 = false) ∧
    ((verify_captcha store cid ans1).1 = false →
      (verify_captcha store cid ans1).2 = store) := by
  constructor
  · intro h
    rw [verify_captcha_true_store store cid ans1 h]
    simp [verify_captcha, assocGet_redisDelete]
  · intro h
    unfold verify_captcha at h ⊢
    cases hg : assocGet cid store with
    | none => rfl
    | some c =>
      rw [hg] at h
      by_cases hc : c ≠ "" ∧ strTrim ans1 = c
      · simp [hc] at h
      · simp [hc]

/-- C3 witness: a concrete challenge verifies once and then fails. -/
theorem captcha_single_use_witness :
    (verify_captcha (verify_captcha [("c1", "7")] "c1" "7").2 "c1" "7").1 = false :=
  (captcha_single_use [("c1", "7")] "c1" "7" "7").1 (by decide)

/-- C6 amended: the risk score equals the capped sum of plus 10 when the IP
string starts with 127. or 192.168., plus 20 when the fingerprint header is
absent or empty, plus 30 on failure, and plus 15 when the hour is below 6 or
above 22, and the result never exceeds 100. -/
theorem risk_score_code_formula (ip : String) (fp : Option String) (success : Bool)
    (hour : Nat) :
    calculate_risk_score ip fp success hour =
      min ((if strStartsWith ip "127." || strStartsWith ip "192.168." then 10 else 0) +
            (if optBlank fp then 20 else 0) +
            (if success = false then 30 else 0) +
            (if hour < 6 ∨ 22 < hour then 15 else 0)) 100 ∧
    calculate_risk_score ip fp success hour ≤ 100 := by
  unfold calculate_risk_score
  constructor
  · split_ifs <;> rfl
  · exact Nat.min_le_right _ _

/-- C6 counterexample: at the private address 10.0.0.1 and local hour 22 the
code omits both the private-address and the unusual-hour contributions, while
the claimed formula includes them, 50 against 75. -/
theorem risk_score_spec_mismatch_cex :
    calculate_risk_score "10.0.0.1" none false 22 = 50 ∧
    spec_risk_score "10.0.0.1" none false 22 = 75 ∧
    calculate_risk_score "10.0.0.1" none false 22 ≠
      spec_risk_score "10.0.0.1" none false 22 := by
  decide

/-- C9: check_rate_limit is the sequential composition of a GET and a separate
SETEX or INCR, and when two calls for the same identifier with limit 1 both
perform the GET before either write, both calls are admitted, so the check and
the increment are not atomic and the limit can be exceeded. -/
theorem rate_limiter_race_overadmission :
    (∀ limit window s, check_rate_limit limit window s = rlResume limit window s s) ∧
    (rlResume 1 300 none none).1 = true ∧
    (rlResume 1 300 none (rlResume 1 300 none none).2).1 = true := by
  refine ⟨?_, rfl, rfl⟩
  intro limit window s
  cases s with
  | none => rfl
  | some e => rfl

/-- C4: for every token whose signature is valid, revocation decodes it with
expiry enforcement disabled and SETEXes its jti into the blacklist for 86400
seconds, and afterwards verification rejects the token at every time now, in
particular while the signature is valid and the token unexpired. -/
theorem revoked_token_rejected (secret : String) (bl : List (String × Nat))
    (t : JwtToken) (now : Nat) (hsig : t.sig = jwtSig secret t.payload) :
    blacklist_token secret bl t = (t.payload.jti, 86400) :: bl ∧
    verify_jwt_token secret (blacklist_token secret bl t) now t = none := by
  have hdec : jwt_decode secret false 0 t = some t.payload := by
    unfold jwt_decode
    rw [if_pos hsig]
    simp
  have hbl : blacklist_token secret bl t = (t.payload.jti, 86400) :: bl := by
    unfold blacklist_token
    rw [hdec]
  refine ⟨hbl, ?_⟩
  unfold verify_jwt_token
  cases hd : jwt_decode secret true now t with
  | none => rfl
  | some p =>
    have hp : p = t.payload := by
      unfold jwt_decode at hd
      rw [if_pos hsig] at hd
      by_cases he : (true : Bool) ∧ t.payload.exp < now
      · rw [if_pos he] at hd
        exact absurd hd (by simp)
      · rw [if_neg he] at hd
        exact (Option.some.inj hd).symm
    rw [hbl, hp]
    simp [assocGet]

/-- C4 witness: a concrete well-signed unexpired token is rejected after
revocation and its jti sits in the blacklist with TTL 86400. -/
theorem revoked_token_rejected_witness :
    blacklist_token "s" [] (jwt_encode "s" ⟨"1", "u", "e", "user", 1000, 0, "j1"⟩) =
      [("j1", 86400)] ∧
    verify_jwt_token "s"
      (blacklist_token "s" [] (jwt_encode "s" ⟨"1", "u", "e", "user", 1000, 0, "j1"⟩)) 5
      (jwt_encode "s" ⟨"1", "u", "e", "user", 1000, 0, "j1"⟩) = none :=
  revoked_token_rejected "s" [] (jwt_encode "s" ⟨"1", "u", "e", "user", 1000, 0, "j1"⟩) 5 rfl

/-- C5: verifying a freshly issued token whose jti is not blacklisted succeeds
and returns exactly the account id as a string, username, email and role, with
expiry minus issue time equal to 24 hours. -/
theorem token_round_trip (secret : String) (bl : List (String × Nat)) (u : Account)
    (now : Nat) (jti : String) (hbl : assocGet jti bl = none) :
    verify_jwt_token secret bl now (generate_jwt_token secret now jti u) =
      some
        { user_id := toString u.id, username := u.username, email := u.email,
          role := u.user_role, exp := now + JWT_EXPIRATION_HOURS * 3600, iat := now,
          jti := jti } ∧
    (now + JWT_EXPIRATION_HOURS * 3600) - now = 24 * 3600 := by
  constructor
  · have hexp : ¬ ((true : Bool) ∧ now + JWT_EXPIRATION_HOURS * 3600 < now) := by
      simp
    simp [verify_jwt_token, generate_jwt_token, jwt_encode, jwt_decode, hexp, hbl]
  · show now + 24 * 3600 - now = 24 * 3600
    omega

/-- C5 witness: a concrete account round-trips through issue and verify. -/
theorem token_round_trip_witness :
    verify_jwt_token "s" [] 50
        (generate_jwt_token "s" 50 "j2" ⟨7, "u", "e", "h", true, false, 0, "admin"⟩) =
      some ⟨"7", "u", "e", "admin", 50 + JWT_EXPIRATION_HOURS * 3600, 50, "j2"⟩ ∧
    (50 + JWT_EXPIRATION_HOURS * 3600) - 50 = 24 * 3600 :=
  token_round_trip "s" [] ⟨7, "u", "e", "h", true, false, 0, "admin"⟩ 50 "j2" rfl

lemma passwordPhase_success_state (checkPw : String → String → Bool) (st : LoginState)
    (u : Account) (req : LoginRequest)
    (h : (passwordPhase checkPw st u req).outcome = LoginOutcome.success) :
    (passwordPhase checkPw st u req).state.user =
      some ({ u with failed_login_attempts := 0, is_locked := false }) := by
  unfold passwordPhase at h ⊢
  by_cases hc : checkPw u.password_hash req.password = false
  · by_cases hl : MAX_LOGIN_ATTEMPTS ≤ u.failed_login_attempts + 1
    · simp [hc, hl] at h
    · simp [hc, hl] at h
  · simp [hc]

lemma passwordPhase_not_captcha (checkPw : String → String → Bool) (st : LoginState)
    (u : Account) (req : LoginRequest) :
    (passwordPhase checkPw st u req).outcome ≠ LoginOutcome.captchaRequired ∧
    (passwordPhase checkPw st u req).outcome ≠ LoginOutcome.invalidCaptcha := by
  unfold passwordPhase
  by_cases hc : checkPw u.password_hash req.password = false
  · by_cases hl : MAX_LOGIN_ATTEMPTS ≤ u.failed_login_attempts + 1
    · simp [hc, hl]
    · simp [hc, hl]
  · simp [hc]

lemma passwordPhase_failed_state (checkPw : String → String → Bool) (st : LoginState)
    (u : Account) (req : LoginRequest)
    (hc : checkPw u.password_hash req.password = false) :
    (passwordPhase checkPw st u req).state =
      { st with user := some (accountAfterFailures u (u.failed_login_attempts + 1)) } := by
  unfold passwordPhase
  by_cases hl : MAX_LOGIN_ATTEMPTS ≤ u.failed_login_attempts + 1
  · simp [hc, hl]
  · simp [hc, hl]

/-- C8: whenever the login route returns success, the stored account row has
failed_login_attempts reset to 0 and is_locked cleared, whatever their prior
values were. -/
theorem success_resets_lockout_state (checkPw : String → String → Bool)
    (st : LoginState) (req : LoginRequest) (fid : String) (n1 n2 : Nat)
    (h : (login checkPw st req fid n1 n2).outcome = LoginOutcome.success) :
    ∃ u : Account, (login checkPw st req fid n1 n2).state.user = some u ∧
      u.failed_login_attempts = 0 ∧ u.is_locked = false := by
  unfold login at h ⊢
  by_cases h1 : req.username = "" ∨ req.password = ""
  · simp [h1] at h
  by_cases h2 : (check_rate_limit 10 300 st.rate).1 = false
  · simp [h1, h2] at h
  cases hu : st.user with
  | none => rw [hu] at h; simp [h1, h2] at h
  | some u =>
    rw [hu] at h
    by_cases h3 : u.is_active = false
    · simp [h1, h2, h3] at h
    by_cases h4 : u.is_locked = true
    · simp [h1, h2, h3, h4] at h
    by_cases h5 : CAPTCHA_THRESHOLD ≤ u.failed_login_attempts
    · by_cases h6 : (optBlank req.captcha_id || optBlank req.captcha_answer) = true
      · simp [h1, h2, h3, h4, h5, h6] at h
      by_cases h7 : (verify_captcha st.captchaStore (req.captcha_id.getD "")
          (req.captcha_answer.getD "")).1 = false
      · simp [h1, h2, h3, h4, h5, h6, h7] at h
      simp only [h1, h2, h3, h4, h5, h6, h7, if_neg, if_pos, ite_false, ite_true] at h ⊢
      simp [h1, h2, h3, h4, h5, h6, h7] at h ⊢
      exact ⟨_, passwordPhase_success_state _ _ _ _ h, rfl, rfl⟩
    · simp [h1, h2, h3, h4, h5] at h ⊢
      exact ⟨_, passwordPhase_success_state _ _ _ _ h, rfl, rfl⟩

/-- C8 witness: a concrete successful login leaves the row with a zero counter
and the lock flag cleared. -/
theorem success_resets_lockout_state_witness :
    ∃ u : Account,
      (login (fun _ _ => true) ⟨none, some ⟨1, "u", "e", "h", true, false, 0, "user"⟩, []⟩
        ⟨"u", "p", none, none⟩ "f" 1 2).state.user = some u ∧
      u.failed_login_attempts = 0 ∧ u.is_locked = false :=
  success_resets_lockout_state (fun _ _ => true)
    ⟨none, some ⟨1, "u", "e", "h", true, false, 0, "user"⟩, []⟩
    ⟨"u", "p", none, none⟩ "f" 1 2 (by decide)

/-- C10: a login rejected at the captcha gate, with CAPTCHA_REQUIRED or
INVALID_CAPTCHA, leaves the account row exactly as it was: the failed counter
is not incremented and the lock flag is not modified. -/
theorem captcha_gate_preserves_account (checkPw : String → String → Bool)
    (st : LoginState) (req : LoginRequest) (fid : String) (n1 n2 : Nat)
    (h : (login checkPw st req fid n1 n2).outcome = LoginOutcome.captchaRequired ∨
      (login checkPw st req fid n1 n2).outcome = LoginOutcome.invalidCaptcha) :
    (login checkPw st req fid n1 n2).state.user = st.user := by
  unfold login at h ⊢
  by_cases h1 : req.username = "" ∨ req.password = ""
  · simp [h1] at h
  by_cases h2 : (check_rate_limit 10 300 st.rate).1 = false
  · simp [h1, h2] at h
  cases hu : st.user with
  | none => rw [hu] at h; simp [h1, h2] at h
  | some u =>
    rw [hu] at h
    by_cases h3 : u.is_active = false
    · simp [h1, h2, h3] at h
    by_cases h4 : u.is_locked = true
    · simp [h1, h2, h3, h4] at h
    by_cases h5 : CAPTCHA_THRESHOLD ≤ u.failed_login_attempts
    · by_cases h6 : (optBlank req.captcha_id || optBlank req.captcha_answer) = true
      · simp [h1, h2, h3, h4, h5, h6]
      by_cases h7 : (verify_captcha st.captchaStore (req.captcha_id.getD "")
          (req.captcha_answer.getD "")).1 = false
      · simp [h1, h2, h3, h4, h5, h6, h7]
      · simp [h1, h2, h3, h4, h5, h6, h7] at h
        rcases h with h | h
        · exact absurd h (passwordPhase_not_captcha _ _ _ _).1
        · exact absurd h (passwordPhase_not_captcha _ _ _ _).2
    · simp [h1, h2, h3, h4, h5] at h
      rcases h with h | h
      · exact absurd h (passwordPhase_not_captcha _ _ _ _).1
      · exact absurd h (passwordPhase_not_captcha _ _ _ _).2

/-- C10 witness: a concrete login against a row with three failures and no
captcha fields is rejected with a challenge and the row is untouched. -/
theorem captcha_gate_preserves_account_witness :
    (login (fun _ _ => false) ⟨none, some ⟨1, "u", "e", "h", true, false, 3, "user"⟩, []⟩
      ⟨"u", "p", none, none⟩ "f" 1 2).state.user =
      some ⟨1, "u", "e", "h", true, false, 3, "user"⟩ := by
  have := captcha_gate_preserves_account (fun _ _ => false)
    ⟨none, some ⟨1, "u", "e", "h", true, false, 3, "user"⟩, []⟩
    ⟨"u", "p", none, none⟩ "f" 1 2 (Or.inl (by decide))
  simpa using this

/-- C7 amended: a login for a nonexistent username and a login with a wrong
password for an existing, active, unlocked account both collapse to the single
error code INVALID_CREDENTIALS, provided the attempt passes the rate limiter
and any required captcha and the failure does not push the counter to the
lockout threshold; when the counter reaches MAX_LOGIN_ATTEMPTS the code
answers ACCOUNT_LOCKED instead. -/
theorem invalid_credentials_uniform :
    (∀ (checkPw : String → String → Bool) (rate : Option RateEntry)
        (cs : List (String × String)) (req : LoginRequest) (fid : String) (n1 n2 : Nat),
      req.username ≠ "" → req.password ≠ "" →
      ¬ (check_rate_limit 10 300 rate).1 = false →
      errorCode (login checkPw ⟨rate, none, cs⟩ req fid n1 n2).outcome =
        some "INVALID_CREDENTIALS") ∧
    (∀ (checkPw : String → String → Bool) (rate : Option RateEntry)
        (cs : List (String × String)) (req : LoginRequest) (fid : String) (n1 n2 : Nat)
        (u : Account),
      req.username ≠ "" → req.password ≠ "" →
      ¬ (check_rate_limit 10 300 rate).1 = false →
      u.is_active = true → u.is_locked = false →
      (u.failed_login_attempts < CAPTCHA_THRESHOLD ∨
        (∃ cid cans, req.captcha_id = some cid ∧ req.captcha_answer = some cans ∧
          cid ≠ "" ∧ cans ≠ "" ∧ (verify_captcha cs cid cans).1 = true)) →
      checkPw u.password_hash req.password = false →
      u.failed_login_attempts + 1 < MAX_LOGIN_ATTEMPTS →
      errorCode (login checkPw ⟨rate, some u, cs⟩ req fid n1 n2).outcome =
        some "INVALID_CREDENTIALS") := by
  constructor
  · intro checkPw rate cs req fid n1 n2 hun hpw hr
    have h1 : ¬ (req.username = "" ∨ req.password = "") := by
      intro hh
      rcases hh with hh | hh
      · exact hun hh
      · exact hpw hh
    simp [login, h1, hr, errorCode]
  · intro checkPw rate cs req fid n1 n2 u hun hpw hr ha hl hgate hc hsmall
    have h1 : ¬ (req.username = "" ∨ req.password = "") := by
      intro hh
      rcases hh with hh | hh
      · exact hun hh
      · exact hpw hh
    have hnl : ¬ MAX_LOGIN_ATTEMPTS ≤ u.failed_login_attempts + 1 := by
      have h5 : u.failed_login_attempts + 1 < 5 := hsmall
      have : MAX_LOGIN_ATTEMPTS = 5 := rfl
      omega
    have hout : (login checkPw ⟨rate, some u, cs⟩ req fid n1 n2).outcome =
        LoginOutcome.invalidCredentials := by
      rcases hgate with hlow | ⟨cid, cans, hcid, hcans, hcidne, hcansne, hv⟩
      · have h5 : ¬ CAPTCHA_THRESHOLD ≤ u.failed_login_attempts := by
          have h3 : u.failed_login_attempts < 3 := hlow
          have : CAPTCHA_THRESHOLD = 3 := rfl
          omega
        simp [login, h1, hr, ha, hl, h5, passwordPhase, hc, hnl]
      · by_cases h5 : CAPTCHA_THRESHOLD ≤ u.failed_login_attempts
        · have hob1 : optBlank (some cid) = false := by
            simpa [optBlank] using hcidne
          have hob2 : optBlank (some cans) = false := by
            simpa [optBlank] using hcansne
          simp [login, h1, hr, ha, hl, h5, hob1, hob2, hcid, hcans, hv, passwordPhase,
            hc, hnl]
        · simp [login, h1, hr, ha, hl, h5, passwordPhase, hc, hnl]
    rw [hout]
    rfl

/-- C7 witness: concrete instances of both shapes map to INVALID_CREDENTIALS. -/
theorem invalid_credentials_uniform_witness :
    errorCode (login (fun _ _ => false) ⟨none, none, []⟩ ⟨"ghost", "p", none, none⟩
        "f" 1 2).outcome = some "INVALID_CREDENTIALS" ∧
    errorCode (login (fun _ _ => false)
        ⟨none, some ⟨1, "u", "e", "h", true, false, 0, "user"⟩, []⟩
        ⟨"u", "wrong", none, none⟩ "f" 1 2).outcome = some "INVALID_CREDENTIALS" :=
  ⟨invalid_credentials_uniform.1 (fun _ _ => false) none [] ⟨"ghost", "p", none, none⟩
      "f" 1 2 (by decide) (by decide) (by decide),
    invalid_credentials_uniform.2 (fun _ _ => false) none []
      ⟨"u", "wrong", none, none⟩ "f" 1 2 ⟨1, "u", "e", "h", true, false, 0, "user"⟩
      (by decide) (by decide) (by decide) rfl rfl (Or.inl (by decide)) rfl (by decide)⟩

/-- C7 counterexample: a wrong password for an existing, active, unlocked
account with four prior failures, offered with a valid captcha, is rejected
with ACCOUNT_LOCKED, not INVALID_CREDENTIALS. -/
theorem invalid_credentials_uniform_cex :
    errorCode (login (fun _ _ => false)
        ⟨none, some ⟨1, "a", "e", "h", true, false, 4, "user"⟩, [("c", "7")]⟩
        ⟨"a", "wrong", some "c", some "7"⟩ "f" 1 2).outcome = some "ACCOUNT_LOCKED" ∧
    some "ACCOUNT_LOCKED" ≠ some "INVALID_CREDENTIALS" := by
  constructor
  · decide
  · decide

lemma accountAfterFailures_zero (u0 : Account) (h0 : u0.failed_login_attempts = 0)
    (hl0 : u0.is_locked = false) : accountAfterFailures u0 0 = u0 := by
  have hd : decide (MAX_LOGIN_ATTEMPTS ≤ 0) = false := rfl
  cases u0
  simp_all [accountAfterFailures]

lemma failedLoginStep_eq (checkPw : String → String → Bool) (uname pw : String)
    (st : LoginState) (u : Account)
    (hun : ¬ uname = "") (hpw : ¬ pw = "")
    (hu : st.user = some u) (ha : u.is_active = true) (hl : u.is_locked = false)
    (hc : checkPw u.password_hash pw = false)
    (hr : ¬ (check_rate_limit 10 300 st.rate).1 = false) :
    ∃ cs, failedLoginStep checkPw uname pw st =
      ⟨(check_rate_limit 10 300 st.rate).2,
        some (accountAfterFailures u (u.failed_login_attempts + 1)), cs⟩ := by
  have h1 : ¬ (uname = "" ∨ pw = "") := by
    intro hh
    rcases hh with hh | hh
    · exact hun hh
    · exact hpw hh
  have hgen : ∀ X : List (String × String),
      (generate_captcha X "g" 3 4).2 = ("g", "7") :: X := fun X => rfl
  have hver : ∀ X : List (String × String),
      verify_captcha (("g", "7") :: X) "g" "7" =
        (true, redisDelete "g" (("g", "7") :: X)) := fun X => rfl
  have hob1 : optBlank (some "g") = false := rfl
  have hob2 : optBlank (some "7") = false := rfl
  unfold failedLoginStep
  by_cases h5 : CAPTCHA_THRESHOLD ≤ u.failed_login_attempts
  · refine ⟨(passwordPhase checkPw
      { st with
        rate := (check_rate_limit 10 300 st.rate).2
        captchaStore := redisDelete "g" (("g", "7") :: st.captchaStore) } u
      ⟨uname, pw, some "g", some "7"⟩).state.captchaStore, ?_⟩
    simp only [login, h1, hr, hu, ha, hl, h5, hob1, hob2, hgen, hver, if_false, if_true,
      ite_false, ite_true]
    simp [h1, hr, ha, hl, h5, hob1, hob2, hgen, hver]
    rw [passwordPhase_failed_state checkPw _ u _ hc]
  · refine ⟨(passwordPhase checkPw
      { st with
        rate := (check_rate_limit 10 300 st.rate).2
        captchaStore := ("g", "7") :: st.captchaStore } u
      ⟨uname, pw, some "g", some "7"⟩).state.captchaStore, ?_⟩
    simp only [login, h1, hr, hu, ha, hl, h5, hgen, if_false, if_true, ite_false, ite_true]
    simp [h1, hr, ha, hl, h5, hgen]
    rw [passwordPhase_failed_state checkPw _ u _ hc]

lemma failedLoginRun_eq (checkPw : String → String → Bool) (uname pw : String)
    (u0 : Account) (cs0 : List (String × String))
    (hun : ¬ uname = "") (hpw : ¬ pw = "") (ha : u0.is_active = true)
    (h0 : u0.failed_login_attempts = 0) (hl0 : u0.is_locked = false)
    (hc : checkPw u0.password_hash pw = false) :
    ∀ n, n ≤ MAX_LOGIN_ATTEMPTS →
      ∃ cs, failedLoginRun checkPw uname pw n ⟨none, some u0, cs0⟩ =
        ⟨if n = 0 then none else some ⟨n, 300⟩, some (accountAfterFailures u0 n), cs⟩ := by
  intro n
  induction n with
  | zero =>
    intro _
    exact ⟨cs0, by simp [failedLoginRun, accountAfterFailures_zero u0 h0 hl0]⟩
  | succ n ih =>
    intro hn
    have hn5 : n + 1 ≤ 5 := hn
    obtain ⟨cs, hcs⟩ := ih (by omega)
    have ha' : (accountAfterFailures u0 n).is_active = true := ha
    have hl' : (accountAfterFailures u0 n).is_locked = false := by
      have hlt : ¬ MAX_LOGIN_ATTEMPTS ≤ n := by
        have : MAX_LOGIN_ATTEMPTS = 5 := rfl
        omega
      simpa [accountAfterFailures] using decide_eq_false hlt
    have hc' : checkPw (accountAfterFailures u0 n).password_hash pw = false := hc
    have hr' : ¬ (check_rate_limit 10 300
        ((if n = 0 then none else some ⟨n, 300⟩ : Option RateEntry))).1 = false := by
      by_cases hn0 : n = 0
      · simp [hn0, check_rate_limit]
      · have hn10 : n < 10 := by omega
        simp [hn0, check_rate_limit, hn10]
    obtain ⟨cs2, hcs2⟩ := failedLoginStep_eq checkPw uname pw
      ⟨if n = 0 then none else some ⟨n, 300⟩, some (accountAfterFailures u0 n), cs⟩
      (accountAfterFailures u0 n) hun hpw rfl ha' hl' hc' hr'
    refine ⟨cs2, ?_⟩
    have hrun : failedLoginRun checkPw uname pw (n + 1) ⟨none, some u0, cs0⟩ =
        failedLoginStep checkPw uname pw
          (failedLoginRun checkPw uname pw n ⟨none, some u0, cs0⟩) := rfl
    rw [hrun, hcs, hcs2]
    have hrate : (check_rate_limit 10 300
        ((if n = 0 then none else some ⟨n, 300⟩ : Option RateEntry))).2 =
        some ⟨n + 1, 300⟩ := by
      by_cases hn0 : n = 0
      · simp [hn0, check_rate_limit]
      · have hn10 : n < 10 := by omega
        simp [hn0, check_rate_limit, hn10]
    have hacct : accountAfterFailures (accountAfterFailures u0 n)
        ((accountAfterFailures u0 n).failed_login_attempts + 1) =
        accountAfterFailures u0 (n + 1) := rfl
    rw [hacct]
    rw [show ((⟨if n = 0 then none else some ⟨n, 300⟩, some (accountAfterFailures u0 n),
      cs⟩ : LoginState)).rate = (if n = 0 then none else some ⟨n, 300⟩ : Option RateEntry)
      from rfl, hrate]
    simp

/-- C1: starting from a fresh account row with zero failures and the lock flag
clear, after n consecutive failed password logins with n at most 5 the stored
row carries failed_login_attempts equal to n with is_locked false while n is
below MAX_LOGIN_ATTEMPTS, and is_locked true exactly when n reaches 5. -/
theorem login_failures_increment_and_lock (checkPw : String → String → Bool)
    (uname pw : String) (u0 : Account) (cs0 : List (String × String))
    (hun : uname ≠ "") (hpw : pw ≠ "") (ha : u0.is_active = true)
    (h0 : u0.failed_login_attempts = 0) (hl0 : u0.is_locked = false)
    (hc : checkPw u0.password_hash pw = false) (n : Nat)
    (hn : n ≤ MAX_LOGIN_ATTEMPTS) :
    ∃ u : Account,
      (failedLoginRun checkPw uname pw n ⟨none, some u0, cs0⟩).user = some u ∧
      u.failed_login_attempts = n ∧
      u.is_locked = decide (MAX_LOGIN_ATTEMPTS ≤ n) := by
  obtain ⟨cs, hcs⟩ := failedLoginRun_eq checkPw uname pw u0 cs0 hun hpw ha h0 hl0 hc n hn
  exact ⟨accountAfterFailures u0 n, by rw [hcs], rfl, rfl⟩

/-- C1 witness: a concrete account reaches five failures and the lock engages. -/
theorem login_failures_increment_and_lock_witness :
    ∃ u : Account,
      (failedLoginRun (fun _ _ => false) "alice" "x" 5
        ⟨none, some ⟨1, "alice", "a", "h", true, false, 0, "user"⟩, []⟩).user = some u ∧
      u.failed_login_attempts = 5 ∧ u.is_locked = true := by
  obtain ⟨u, hh1, hh2, hh3⟩ := login_failures_increment_and_lock (fun _ _ => false)
    "alice" "x" ⟨1, "alice", "a", "h", true, false, 0, "user"⟩ [] (by decide) (by decide)
    rfl rfl rfl rfl 5 (by decide)
  exact ⟨u, hh1, hh2, hh3.trans (by decide)⟩
